import Mathlib

/-!
Verification of the Session & Response-Orchestration Core of the
quran_teacher2 repository: the WAV audio codec (`TTSService.convertPCMToWAV`),
the in-memory session registry (`SessionManager`), and the turn-processing
logic of `RecitationService` together with the socket handlers of
`server/index.ts`.

Modelling conventions:
- byte buffers are `List Nat` with entries below 256 where constructed;
- timestamps (`Date` values, `Date.now()`) are `Int` milliseconds;
- the two external collaborators (the Gemini text generator and the speech
  synthesizer) are modelled by explicit outcome parameters, since the core
  only observes their outcome (a text, an audio string, "no audio", or a
  thrown error);
- JavaScript in-place mutation of a `Session` object that lives inside the
  the `Map` of the `SessionManager` is modelled by threading the updated `Session`
  value back into the store.
-/

/-! ## String helpers

`String.prototype.includes` and `String.prototype.toLowerCase` as used by
`RecitationService.isAskingForFeedback` and `RecitationService.needsAssistance`.
-/

/-- Predicate `hasPrefixCL needle hay` is true when the char list `needle` is an initial
segment of `hay`. -/
def hasPrefixCL : List Char → List Char → Bool
  | [], _ => true
  | _ :: _, [] => false
  | a :: as, b :: bs => a == b && hasPrefixCL as bs

/-- Predicate `hasSubstrCL needle hay` is true when `needle` occurs contiguously inside
`hay` — the semantics of JavaScript `hay.includes(needle)` at char level. -/
def hasSubstrCL (needle : List Char) : List Char → Bool
  | [] => needle.isEmpty
  | b :: bs => hasPrefixCL needle (b :: bs) || hasSubstrCL needle bs

/-- Character-wise lower-casing, the model of `String.prototype.toLowerCase`
for the strings this codebase compares (ASCII keywords and Arabic text, which
is caseless). -/
def lowerChars (s : String) : List Char := s.data.map Char.toLower

/-- JavaScript `hay.toLowerCase().includes(needle.toLowerCase())`. -/
def includesCI (hay needle : String) : Bool :=
  hasSubstrCL (lowerChars needle) (lowerChars hay)

/-- JavaScript `hay.includes(needle)` (case-sensitive). -/
def includesStr (hay needle : String) : Bool :=
  hasSubstrCL needle.data hay.data

/-! ## Data model: `Session` (server/types/Session.ts) -/

/-- The `Session` interface of `server/types/Session.ts` (the three optional
progress fields `currentVerse`/`totalVerses`/`progress` are never read or
written by the core and are omitted). `Date` timestamps are `Int`
milliseconds. -/
structure Session where
  id : String
  surah : Option String
  language : String
  createdAt : Int
  lastActivity : Int
  recitationHistory : List String
  lastRecitation : String
  socketId : Option String
deriving DecidableEq, Repr

/-! ## AudioCodec: `TTSService.convertPCMToWAV` (src/unnamed/part_004, lines 152-205)

The source decodes a base64 payload to a byte buffer, builds a 44-byte WAV
header with `Buffer.writeUInt32LE`/`writeUInt16LE`/`write`, concatenates the
header with the payload and re-encodes to base64.  The base64 transport is
omitted: input and output are the decoded byte sequences.

The source fixes `sampleRate = 24000`, `numChannels = 1`,
`bitsPerSample = 16` (lines 158-160).  They are parameters here so that the
quantification of the specification over format parameters can be stated;
`convertPCMToWAVFixed` below is the function of the source, the instance at
the constants of the source.
-/

/-- The 2 little-endian bytes `Buffer.writeUInt16LE` stores for an in-range
value. -/
def u16le (v : Nat) : List Nat := [v % 256, v / 256 % 256]

/-- The 4 little-endian bytes `Buffer.writeUInt32LE` stores for an in-range
value. -/
def u32le (v : Nat) : List Nat :=
  [v % 256, v / 256 % 256, v / 65536 % 256, v / 16777216 % 256]

/-- The 44-byte WAV header of `convertPCMToWAV`, field by field in source
order: "RIFF", ChunkSize = dataSize+36, "WAVE", "fmt ", Subchunk1Size = 16,
AudioFormat = 1 (PCM), NumChannels, SampleRate, ByteRate, BlockAlign,
BitsPerSample, "data", Subchunk2Size = dataSize. -/
def wavHeader (sampleRate numChannels bitsPerSample dataSize : Nat) : List Nat :=
  [82, 73, 70, 70] ++ u32le (dataSize + 36) ++
  [87, 65, 86, 69] ++ [102, 109, 116, 32] ++
  u32le 16 ++ u16le 1 ++ u16le numChannels ++ u32le sampleRate ++
  u32le (sampleRate * numChannels * bitsPerSample / 8) ++
  u16le (numChannels * bitsPerSample / 8) ++
  u16le bitsPerSample ++
  [100, 97, 116, 97] ++ u32le dataSize

/-- The range/integrality assertions of the Node `Buffer` writes in
`convertPCMToWAV`: `writeUInt32LE` (resp. `writeUInt16LE`) throws unless its
value is an integer below 2^32 (resp. 2^16).  `byteRate` and `blockAlign` are
computed with JavaScript real division by 8, so they are integers exactly
when the products are divisible by 8. -/
def wavWriteOk (sampleRate numChannels bitsPerSample dataSize : Nat) : Bool :=
  decide (dataSize + 36 < 4294967296) &&
  decide (numChannels < 65536) &&
  decide (sampleRate < 4294967296) &&
  decide (sampleRate * numChannels * bitsPerSample % 8 = 0) &&
  decide (sampleRate * numChannels * bitsPerSample / 8 < 4294967296) &&
  decide (numChannels * bitsPerSample % 8 = 0) &&
  decide (numChannels * bitsPerSample / 8 < 65536) &&
  decide (bitsPerSample < 65536) &&
  decide (dataSize < 4294967296)

/-- Model of `TTSService.convertPCMToWAV`, body of lines 152-205 with the three
hardcoded format constants as parameters.  `none` models the function
throwing (a `Buffer` write range error rethrown by the `catch` block);
there is no other failure path and no format validation in the source. -/
def convertPCMToWAV (sampleRate numChannels bitsPerSample : Nat)
    (pcm : List Nat) : Option (List Nat) :=
  if wavWriteOk sampleRate numChannels bitsPerSample pcm.length then
    some (wavHeader sampleRate numChannels bitsPerSample pcm.length ++ pcm)
  else
    none

/-- The function of the source exactly as written: format fixed at 24 kHz, mono,
16-bit (lines 158-160). -/
def convertPCMToWAVFixed (pcm : List Nat) : Option (List Nat) :=
  convertPCMToWAV 24000 1 16 pcm

/-- Little-endian 16-bit read at byte offset `i` (missing bytes read as 0). -/
def readU16le (bs : List Nat) (i : Nat) : Nat :=
  bs.getD i 0 + 256 * bs.getD (i + 1) 0

/-- Little-endian 32-bit read at byte offset `i` (missing bytes read as 0). -/
def readU32le (bs : List Nat) (i : Nat) : Nat :=
  bs.getD i 0 + 256 * bs.getD (i + 1) 0 + 65536 * bs.getD (i + 2) 0 +
    16777216 * bs.getD (i + 3) 0

/-! ## SessionStore: `SessionManager` (server/services/SessionManager.ts)

The `Map<string, Session>` is modelled as a `List Session`; map keys are the
session ids (unique, generated by `uuidv4`). -/

/-- Model of `SessionManager.getSession` (lines 26-32): look the session up; if found,
refresh its `lastActivity` in place and return it.  The in-place mutation of
the stored object is modelled by returning the updated store alongside the
result. -/
def getSession (now : Int) (sessionId : String) (store : List Session) :
    Option Session × List Session :=
  match store.find? (fun s => s.id == sessionId) with
  | none => (none, store)
  | some s =>
      (some { s with lastActivity := now },
       store.map (fun t => if t.id == sessionId then { t with lastActivity := now } else t))

/-- Model of `SessionManager.cleanupOldSessions` (lines 62-71): delete every session
whose `lastActivity` is strictly before `now - maxAgeMinutes * 60 * 1000`. -/
def cleanupOldSessions (now maxAgeMinutes : Int) (store : List Session) :
    List Session :=
  store.filter (fun s => !(decide (s.lastActivity < now - maxAgeMinutes * 60 * 1000)))

/-- The `setInterval` task of SessionManager.ts lines 82-86.  Its body is
`const sessionManager = new SessionManager(); sessionManager.cleanupOldSessions(60);`:
it constructs a brand-new `SessionManager` — whose private `sessions` map is
empty — runs the cleanup on that fresh instance, and discards it.  The
`SessionManager` constructed in server/index.ts line 53, which serves the
requests, is not referenced.  The result pair is (the store of the serving
instance after the sweep, the store of the fresh instance after the sweep). -/
def scheduledSweep (live : List Session) (now : Int) :
    List Session × List Session :=
  let freshStore : List Session := []
  (live, cleanupOldSessions now 60 freshStore)

/-! ## TurnClassifier and ResponseOrchestrator: `RecitationService`
(server/services/RecitationService.ts) and the socket handlers of
server/index.ts. -/

/-- Outcome of the one external text-generation call of a turn
(`this.model.generateContent(prompt)`): the generated text, or a thrown
error. -/
inductive GenOutcome where
  | ok (text : String)
  | fail
deriving DecidableEq, Repr

/-- Outcome of the speech synthesizer (`this.ttsService.generateSpeech`):
an audio data string, `null` ("no audio"), or a thrown error. -/
inductive SynthOutcome where
  | ok (audio : String)
  | noAudio
  | fail
deriving DecidableEq, Repr

/-- The per-turn reply object built by `RecitationService` (`type`, `text`,
optional `audio`, optional `transcription` field). -/
structure Reply where
  type : String
  text : String
  audio : Option String
  transcription : Option String
deriving DecidableEq, Repr

/-- Model of `RecitationService.generateAudio` (lines 161-181): returns the audio
data when the TTS service produced some, and `undefined` both when the
service returned `null` and when it threw (the `catch` block returns
`undefined` so the app continues text-only). -/
def generateAudio (synth : SynthOutcome) : Option String :=
  match synth with
  | .ok audio => some audio
  | .noAudio => none
  | .fail => none

/-- The per-language feedback keyword table of
`RecitationService.isAskingForFeedback` (lines 287-291), with the English fallback of the source for any other language (line 293). -/
def feedbackKeywords (language : String) : List String :=
  if language = "en" then ["mistake", "correct", "wrong", "feedback", "how did i do"]
  else if language = "ar" then ["خطأ", "صحيح", "غلط", "تقييم"]
  else if language = "it" then ["sbaglio", "corretto", "errore", "feedback"]
  else ["mistake", "correct", "wrong", "feedback", "how did i do"]

/-- Model of `RecitationService.isAskingForFeedback` (lines 286-295):
`keywords.some(keyword => text.toLowerCase().includes(keyword.toLowerCase()))`. -/
def isAskingForFeedback (text language : String) : Bool :=
  (feedbackKeywords language).any (fun keyword => includesCI text keyword)

/-- Model of `RecitationService.needsAssistance` (lines 297-301):
`transcription.length < 10 || transcription.includes("...")` (the source
uses the three-dot string literal).  The `session`
argument is taken but never consulted, as in the source. -/
def needsAssistance (transcription : String) (session : Session) : Bool :=
  decide (transcription.length < 10) || includesStr transcription "..."

/-- The three-way turn intent decided by the if-chain of
`RecitationService.processAudio` lines 64-75. -/
inductive Intent where
  | feedbackRequest
  | assistanceNeeded
  | normal
deriving DecidableEq, Repr

/-- The turn classification implicit in `processAudio` lines 64-75: the
feedback check runs first, the assistance check only when it failed. -/
def classify (transcript : String) (session : Session) : Intent :=
  if isAskingForFeedback transcript session.language then .feedbackRequest
  else if needsAssistance transcript session then .assistanceNeeded
  else .normal

/-- Model of `RecitationService.getClarificationMessage` (lines 303-311). -/
def getClarificationMessage (language : String) : String :=
  if language = "en" then
    "I didn\x27t understand clearly. Could you please repeat the last part?"
  else if language = "ar" then "لم أفهم بوضوح. هل يمكنك إعادة الجزء الأخير؟"
  else if language = "it" then "Non ho capito chiaramente. Potresti ripetere l\x27ultima parte?"
  else "I didn\x27t understand clearly. Could you please repeat the last part?"

/-- Model of `RecitationService.processText` (lines 83-138).  The session object is
first mutated in place (`lastRecitation`, `recitationHistory.push`), then the
feedback check decides between `provideFeedback` (reply type "feedback",
lines 140-159) and the normal path (reply type "response").  In both paths
one external generation call is made — if it throws, the error propagates out
of `processText` (`none` here) — and, on success, `generateAudio` supplies the
optional audio.  The mutated session is returned alongside, because in the
source it is the very object held by the `SessionManager` map. -/
def processText (text : String) (session : Session) (gen : GenOutcome)
    (synth : SynthOutcome) : Option Reply × Session :=
  let mutated := { session with
    lastRecitation := text,
    recitationHistory := session.recitationHistory ++ [text] }
  if isAskingForFeedback text mutated.language then
    match gen with
    | .ok t =>
        (some { type := "feedback", text := t, audio := generateAudio synth,
                transcription := none }, mutated)
    | .fail => (none, mutated)
  else
    match gen with
    | .ok t =>
        (some { type := "response", text := t, audio := generateAudio synth,
                transcription := some text }, mutated)
    | .fail => (none, mutated)

/-- Model of `RecitationService.processAudio` (lines 44-81) given the transcription
outcome of `transcribeAudio`: `none` transcription takes the clarification
branch (session untouched); otherwise the session is mutated in place and the
turn branches on `isAskingForFeedback`, then on `needsAssistance`, to
`provideFeedback` ("feedback"), `provideContinuation` ("continuation") or
`processRecitation` ("acknowledgment"), each making one generation call
(thrown errors propagate: `none`) and one `generateAudio` call. -/
def processAudio (transcription : Option String) (session : Session)
    (gen : GenOutcome) (synth : SynthOutcome) : Option Reply × Session :=
  match transcription with
  | none =>
      (some { type := "clarification",
              text := getClarificationMessage session.language,
              audio := generateAudio synth, transcription := none }, session)
  | some t =>
      let mutated := { session with
        lastRecitation := t,
        recitationHistory := session.recitationHistory ++ [t] }
      if isAskingForFeedback t mutated.language then
        match gen with
        | .ok g =>
            (some { type := "feedback", text := g, audio := generateAudio synth,
                    transcription := none }, mutated)
        | .fail => (none, mutated)
      else if needsAssistance t mutated then
        match gen with
        | .ok g =>
            (some { type := "continuation", text := g,
                    audio := generateAudio synth, transcription := none }, mutated)
        | .fail => (none, mutated)
      else
        match gen with
        | .ok g =>
            (some { type := "acknowledgment", text := g,
                    audio := generateAudio synth, transcription := some t }, mutated)
        | .fail => (none, mutated)

/-- What the `text-input` socket handler emits back to the client. -/
inductive TurnOutcome where
  | reply (r : Reply)
  | failed (msg : String)
deriving DecidableEq, Repr

/-- Write the (in-place mutated) session object back over the store entry
with its id — the identity step of JavaScript reference semantics. -/
def updateInStore (sessionId : String) (s2 : Session) (store : List Session) :
    List Session :=
  store.map (fun t => if t.id == sessionId then s2 else t)

/-- The `text-input` socket handler of server/index.ts (lines 156-174):
look the session up (refreshing `lastActivity`), emit "Session not found" if
absent, otherwise run `processText` on the stored session object; a thrown
error is caught and emitted as "Failed to process text".  The session
mutations made by `processText` before the throw point live in the object
held by the store and persist either way. -/
def handleTextInput (now : Int) (sessionId text : String) (gen : GenOutcome)
    (synth : SynthOutcome) (store : List Session) :
    List Session × TurnOutcome :=
  match getSession now sessionId store with
  | (none, store2) => (store2, .failed "Session not found")
  | (some s, store2) =>
      match processText text s gen synth with
      | (some r, s2) => (updateInStore sessionId s2 store2, .reply r)
      | (none, s2) => (updateInStore sessionId s2 store2, .failed "Failed to process text")

/-! ## Concrete sessions and stores used by witnesses and counterexamples -/

/-- An English-language session used by concrete witnesses. -/
def sessEn : Session :=
  { id := "s-en", surah := none, language := "en", createdAt := 0,
    lastActivity := 0, recitationHistory := [], lastRecitation := "",
    socketId := none }

/-- A session with one previous turn, used by concrete witnesses. -/
def sessTurn : Session :=
  { id := "s1", surah := some "Al-Fatiha", language := "en", createdAt := 0,
    lastActivity := 0, recitationHistory := ["x"], lastRecitation := "x",
    socketId := none }

/-- The stored session as it actually is after a failed generation turn that
submitted "hello my friend": history and last transcript already
rewritten. -/
def sessTurnMutated : Session :=
  { sessTurn with
      lastActivity := 5
      lastRecitation := "hello my friend"
      recitationHistory := ["x", "hello my friend"] }

/-- The stored session as C4 says it should remain after the failed turn:
only `lastActivity` refreshed at turn start, history and last transcript
untouched. -/
def sessTurnUntouched : Session := { sessTurn with lastActivity := 5 }

/-- A session last active 61 minutes before the reference instant 0. -/
def sessOld : Session :=
  { id := "old", surah := none, language := "en", createdAt := -3660000,
    lastActivity := -3660000, recitationHistory := [], lastRecitation := "",
    socketId := none }

/-- A session last active 59 minutes before the reference instant 0. -/
def sessFresh : Session :=
  { id := "fresh", surah := none, language := "en", createdAt := -3540000,
    lastActivity := -3540000, recitationHistory := [], lastRecitation := "",
    socketId := none }

/-! ## Theorems -/

/-- Splitting the success hypothesis of the encoder: the output is the header
followed by the payload, and the `Buffer` write bounds all hold. -/
theorem convertPCMToWAV_some (sr ch bits : Nat) (pcm out : List Nat)
    (h : convertPCMToWAV sr ch bits pcm = some out) :
    out = wavHeader sr ch bits pcm.length ++ pcm ∧
      wavWriteOk sr ch bits pcm.length = true := by
  unfold convertPCMToWAV at h
  by_cases hg : wavWriteOk sr ch bits pcm.length = true
  · rw [if_pos hg] at h
    exact ⟨(Option.some_injective _ h).symm, hg⟩
  · rw [if_neg hg] at h
    exact absurd h (by simp)

/-- The numeric bounds packed inside `wavWriteOk`. -/
theorem wavWriteOk_bounds (sr ch bits d : Nat)
    (h : wavWriteOk sr ch bits d = true) :
    d + 36 < 4294967296 ∧ ch < 65536 ∧ sr < 4294967296 ∧
      sr * ch * bits % 8 = 0 ∧ sr * ch * bits / 8 < 4294967296 ∧
      ch * bits % 8 = 0 ∧ ch * bits / 8 < 65536 ∧ bits < 65536 ∧
      d < 4294967296 := by
  simp only [wavWriteOk, Bool.and_eq_true, decide_eq_true_eq] at h
  exact ⟨h.1.1.1.1.1.1.1.1, h.1.1.1.1.1.1.1.2, h.1.1.1.1.1.1.2,
    h.1.1.1.1.1.2, h.1.1.1.1.2, h.1.1.1.2, h.1.1.2, h.1.2, h.2⟩

/-- C1: whenever the PCM-to-WAV encoding succeeds, the output is a 44-byte
header followed by the payload bytes unmodified, the little-endian 32-bit
data-size field at offset 40 equals the payload length, the file-size field
at offset 4 equals payload length + 36, the format tag at offset 20 equals 1
(PCM), the byte-rate field at offset 28 equals
sampleRate * channels * bitsPerSample / 8, and the block-align field at
offset 32 equals channels * bitsPerSample / 8. -/
theorem convertPCMToWAV_header_fields (sr ch bits : Nat) (pcm out : List Nat)
    (h : convertPCMToWAV sr ch bits pcm = some out) :
    out.length = 44 + pcm.length ∧
    out.drop 44 = pcm ∧
    readU32le out 40 = pcm.length ∧
    readU32le out 4 = pcm.length + 36 ∧
    readU16le out 20 = 1 ∧
    readU32le out 28 = sr * ch * bits / 8 ∧
    readU16le out 32 = ch * bits / 8 := by
  obtain ⟨hout, hg⟩ := convertPCMToWAV_some sr ch bits pcm out h
  obtain ⟨b1, b2, b3, b4, b5, b6, b7, b8, b9⟩ := wavWriteOk_bounds sr ch bits pcm.length hg
  subst hout
  refine ⟨?_, ?_, ?_, ?_, ?_, ?_, ?_⟩ <;>
    (simp [wavHeader, u16le, u32le, readU32le, readU16le,
       List.getD_cons_succ, List.getD_cons_zero]; try omega)

/-- Witness for C1 at a concrete input: a 3-byte payload, the format
constants of the source. -/
theorem convertPCMToWAV_header_fields_witness :
    (wavHeader 24000 1 16 3 ++ [1, 2, 3]).length = 44 + 3 ∧
    (wavHeader 24000 1 16 3 ++ [1, 2, 3]).drop 44 = [1, 2, 3] ∧
    readU32le (wavHeader 24000 1 16 3 ++ [1, 2, 3]) 40 = 3 ∧
    readU32le (wavHeader 24000 1 16 3 ++ [1, 2, 3]) 4 = 3 + 36 ∧
    readU16le (wavHeader 24000 1 16 3 ++ [1, 2, 3]) 20 = 1 ∧
    readU32le (wavHeader 24000 1 16 3 ++ [1, 2, 3]) 28 = 24000 * 1 * 16 / 8 ∧
    readU16le (wavHeader 24000 1 16 3 ++ [1, 2, 3]) 32 = 1 * 16 / 8 := by
  have h := convertPCMToWAV_header_fields 24000 1 16 [1, 2, 3]
    (wavHeader 24000 1 16 3 ++ [1, 2, 3]) (by decide)
  simpa using h

/-- C9: round-trip of the format parameters — parsing the sample-rate field
(offset 24), the channel-count field (offset 22) and the bits-per-sample
field (offset 34) of a successfully encoded container yields back exactly
the values supplied at encode time. -/
theorem convertPCMToWAV_roundtrip (sr ch bits : Nat) (pcm out : List Nat)
    (h : convertPCMToWAV sr ch bits pcm = some out) :
    readU32le out 24 = sr ∧ readU16le out 22 = ch ∧ readU16le out 34 = bits := by
  obtain ⟨hout, hg⟩ := convertPCMToWAV_some sr ch bits pcm out h
  obtain ⟨b1, b2, b3, b4, b5, b6, b7, b8, b9⟩ := wavWriteOk_bounds sr ch bits pcm.length hg
  subst hout
  refine ⟨?_, ?_, ?_⟩ <;>
    (simp [wavHeader, u16le, u32le, readU32le, readU16le,
       List.getD_cons_succ, List.getD_cons_zero]; try omega)

/-- Witness for C9 at the format constants of the source, 2-byte payload. -/
theorem convertPCMToWAV_roundtrip_witness :
    readU32le (wavHeader 24000 1 16 2 ++ [9, 9]) 24 = 24000 ∧
    readU16le (wavHeader 24000 1 16 2 ++ [9, 9]) 22 = 1 ∧
    readU16le (wavHeader 24000 1 16 2 ++ [9, 9]) 34 = 16 :=
  convertPCMToWAV_roundtrip 24000 1 16 [9, 9]
    (wavHeader 24000 1 16 2 ++ [9, 9]) (by decide)

/-- C8 counterexample: the claim says the encoder fails with `InvalidFormat`
whenever `channelCount < 1`; but the source performs no format validation at
all, and with channelCount = 0 (and the hardcoded 24 kHz, 16-bit values) the
encoding succeeds. -/
theorem convertPCMToWAV_no_validation :
    (convertPCMToWAV 24000 0 16 []).isSome = true ∧ 0 < 1 := by
  exact ⟨by decide, by decide⟩

/-- C8 amended: the encoder never fails with `InvalidFormat` — it has no
format validation; its format parameters are hardcoded to 24 kHz, mono,
16-bit, and with those constants it succeeds on every payload whose
length + 36 fits an unsigned 32-bit field (the Node `Buffer` write range,
the only failure mode in the source and unreachable for payloads decodable
from base64). -/
theorem convertPCMToWAVFixed_total (pcm : List Nat)
    (h : pcm.length + 36 < 4294967296) :
    convertPCMToWAVFixed pcm = some (wavHeader 24000 1 16 pcm.length ++ pcm) := by
  unfold convertPCMToWAVFixed convertPCMToWAV
  rw [if_pos]
  simp only [wavWriteOk, Bool.and_eq_true, decide_eq_true_eq]
  norm_num
  omega

/-- Witness for the amended C8 at a concrete 1-byte payload. -/
theorem convertPCMToWAVFixed_total_witness :
    convertPCMToWAVFixed [200] = some (wavHeader 24000 1 16 1 ++ [200]) :=
  convertPCMToWAVFixed_total [200] (by decide)

/-- A map that fixes every element of a list is the identity on it. -/
theorem map_eq_self_of_fixed {α : Type} (l : List α) (f : α → α)
    (h : ∀ a ∈ l, f a = a) : l.map f = l := by
  induction l with
  | nil => rfl
  | cons a t ih =>
      simp only [List.map_cons, h a (by simp)]
      rw [ih (fun b hb => h b (by simp [hb]))]

/-- C3: a transcript that contains (case-insensitively) any keyword of the
feedback-keyword list of the session language (with the English fallback built
into `feedbackKeywords`) is classified as a feedback request — regardless of
its length, since the feedback check runs before the needs-assistance check —
and the audio turn takes the feedback path, producing a "feedback" reply. -/
theorem feedback_keyword_forces_feedback (t : String) (session : Session)
    (k g : String) (synth : SynthOutcome)
    (hk : k ∈ feedbackKeywords session.language)
    (hc : includesCI t k = true) :
    classify t session = Intent.feedbackRequest ∧
    (processAudio (some t) session (.ok g) synth).1 =
      some { type := "feedback", text := g, audio := generateAudio synth,
             transcription := none } := by
  have hf : isAskingForFeedback t session.language = true := by
    unfold isAskingForFeedback
    rw [List.any_eq_true]
    exact ⟨k, hk, hc⟩
  constructor
  · simp [classify, hf]
  · simp [processAudio, hf]

/-- Witness for C3: the keyword "mistake" in an English-language turn; the
transcript is 7 characters long (below the 10-character assistance
threshold), so this also exercises the precedence of the feedback check. -/
theorem feedback_keyword_forces_feedback_witness :
    classify "mistake" sessEn = Intent.feedbackRequest ∧
    (processAudio (some "mistake") sessEn (.ok "well done") .noAudio).1 =
      some { type := "feedback", text := "well done", audio := none,
             transcription := none } := by
  have h := feedback_keyword_forces_feedback "mistake" sessEn "mistake"
    "well done" .noAudio (by decide) (by decide)
  simpa using h

/-- C6: when no feedback keyword matches, the turn is classified as needing
assistance exactly when the transcript is shorter than 10 characters or
contains the ellipsis marker "...". -/
theorem classify_assistance_iff (t : String) (session : Session)
    (hnf : isAskingForFeedback t session.language = false) :
    classify t session = Intent.assistanceNeeded ↔
      (t.length < 10 ∨ includesStr t "..." = true) := by
  unfold classify
  rw [hnf]
  by_cases hna : needsAssistance t session = true
  · have h2 := hna
    simp only [needsAssistance, Bool.or_eq_true, decide_eq_true_eq] at h2
    simp [hna, h2]
  · have h2 : ¬ (t.length < 10 ∨ includesStr t "..." = true) := by
      intro hcontra
      apply hna
      simp only [needsAssistance, Bool.or_eq_true, decide_eq_true_eq]
      exact hcontra
    simp [hna, h2]

/-- Witness for C6: a 3-character transcript with no feedback keywords is
classified as needing assistance. -/
theorem classify_assistance_iff_witness :
    classify "abc" sessEn = Intent.assistanceNeeded :=
  (classify_assistance_iff "abc" sessEn (by decide)).mpr (Or.inl (by decide))

/-- C2: when text generation succeeds and the synthesizer returns no audio
or throws, the turn still completes with a reply whose `text` is the
generated text and whose `audio` is absent — it is not reported as a
failure. -/
theorem processText_degrades_to_text (text : String) (session : Session)
    (t : String) (synth : SynthOutcome)
    (hs : synth = SynthOutcome.noAudio ∨ synth = SynthOutcome.fail) :
    ∃ r, (processText text session (.ok t) synth).1 = some r ∧
      r.text = t ∧ r.audio = none := by
  have ha : generateAudio synth = none := by
    rcases hs with h | h <;> subst h <;> rfl
  by_cases hf : isAskingForFeedback text session.language = true
  · refine ⟨Reply.mk "feedback" t (generateAudio synth) none, ?_, rfl, ha⟩
    simp [processText, hf]
  · refine ⟨Reply.mk "response" t (generateAudio synth) (some text), ?_, rfl, ha⟩
    simp [processText, hf]

/-- Witness for C2: a synthesizer that returned `null` on a normal text
turn. -/
theorem processText_degrades_to_text_witness :
    ∃ r, (processText "bismillah recitation" sessEn (.ok "very good") .noAudio).1 =
        some r ∧ r.text = "very good" ∧ r.audio = none :=
  processText_degrades_to_text "bismillah recitation" sessEn "very good"
    .noAudio (Or.inl rfl)

/-- C4 amended: when the external text generator fails, the turn terminates
with an error and the synthesizer outcome is never consulted (synthesis is
not attempted); however, the session object has already been mutated — its
`lastRecitation` is the submitted text and the text has been appended to its
`recitationHistory` — and those mutations persist through the failure. -/
theorem processText_genFail (text : String) (session : Session)
    (synth : SynthOutcome) :
    (processText text session .fail synth).1 = none ∧
    (∀ synth2, processText text session .fail synth =
      processText text session .fail synth2) ∧
    (processText text session .fail synth).2.recitationHistory =
      session.recitationHistory ++ [text] ∧
    (processText text session .fail synth).2.lastRecitation = text := by
  by_cases hf : isAskingForFeedback text session.language = true
  · exact ⟨by simp [processText, hf], fun synth2 => by simp [processText, hf],
      by simp [processText, hf], by simp [processText, hf]⟩
  · exact ⟨by simp [processText, hf], fun synth2 => by simp [processText, hf],
      by simp [processText, hf], by simp [processText, hf]⟩

/-- C4 counterexample: a concrete `text-input` turn whose generation call
fails.  The handler reports the failure, but the stored session has its
`recitationHistory` extended with the submitted text and `lastRecitation`
overwritten — the claimed "session state is unaffected" is false. -/
theorem handleTextInput_genFail_mutates :
    (handleTextInput 5 "s1" "hello my friend" .fail .noAudio [sessTurn]).2 =
      TurnOutcome.failed "Failed to process text" ∧
    (handleTextInput 5 "s1" "hello my friend" .fail .noAudio [sessTurn]).1 =
      [sessTurnMutated] ∧
    ¬ ((handleTextInput 5 "s1" "hello my friend" .fail .noAudio [sessTurn]).1 =
      [sessTurnUntouched]) := by
  refine ⟨by decide, by decide, by decide⟩

/-- C5: one run of the scheduled 15-minute sweep.  The sweep operates on a
freshly constructed, empty `SessionManager`, so the live registry is
returned unchanged: no session it holds is ever removed by the sweep, and
the store of the fresh instance stays empty. -/
theorem scheduledSweep_preserves_live (live : List Session) (now : Int) :
    (scheduledSweep live now).1 = live ∧
    (∀ s ∈ live, s ∈ (scheduledSweep live now).1) ∧
    (scheduledSweep live now).2 = [] :=
  ⟨rfl, fun _ hs => hs, rfl⟩

/-- C7: `cleanupOldSessions` keeps exactly the sessions whose `lastActivity`
is not older than now − maxAgeMinutes, removing all the others; in
particular, with a 60-minute window it removes a session last active 61
minutes ago and keeps one last active 59 minutes ago. -/
theorem cleanupOldSessions_spec :
    (∀ (now maxAgeMinutes : Int) (store : List Session) (s : Session),
        s ∈ cleanupOldSessions now maxAgeMinutes store ↔
          s ∈ store ∧ ¬ (s.lastActivity < now - maxAgeMinutes * 60 * 1000)) ∧
    cleanupOldSessions 0 60 [sessOld, sessFresh] = [sessFresh] := by
  constructor
  · intro now maxAgeMinutes store s
    simp [cleanupOldSessions, List.mem_filter]
  · decide

/-- C10: frame property of `getSession`.  (a) An unknown identifier returns
absent and leaves the store unchanged.  (b) The store after a get is the
pointwise image in which only sessions with the requested id have their
`lastActivity` refreshed — every other session, and every other field, is
untouched.  (c) A returned session is a stored session with only its
`lastActivity` set to the current instant. -/
theorem getSession_frame (now : Int) (sid : String) (store : List Session) :
    ((∀ s ∈ store, ¬ s.id = sid) → getSession now sid store = (none, store)) ∧
    ((getSession now sid store).2 =
      store.map (fun t => if t.id == sid then { t with lastActivity := now } else t)) ∧
    (∀ r, (getSession now sid store).1 = some r →
      ∃ s, s ∈ store ∧ s.id = sid ∧ r = { s with lastActivity := now }) := by
  refine ⟨?_, ?_, ?_⟩
  · intro h
    have hnone : store.find? (fun s => s.id == sid) = none := by
      rw [List.find?_eq_none]
      intro x hx
      simpa using h x hx
    simp [getSession, hnone]
  · cases hfind : store.find? (fun s => s.id == sid) with
    | none =>
        have hfix : ∀ t ∈ store,
            (if t.id == sid then { t with lastActivity := now } else t) = t := by
          intro t ht
          have hne := List.find?_eq_none.mp hfind t ht
          simp only [Bool.not_eq_true] at hne
          rw [hne]
          simp
        have hmap := map_eq_self_of_fixed store
          (fun t => if t.id == sid then { t with lastActivity := now } else t) hfix
        simp only [getSession, hfind]
        exact hmap.symm
    | some s => simp only [getSession, hfind]
  · intro r hr
    cases hfind : store.find? (fun s => s.id == sid) with
    | none => simp [getSession, hfind] at hr
    | some s =>
        refine ⟨s, List.mem_of_find?_eq_some hfind, ?_, ?_⟩
        · have := List.find?_some hfind
          simpa using this
        · simp [getSession, hfind] at hr
          exact hr.symm

/-- Witness for the amended C4 at a concrete turn. -/
theorem processText_genFail_witness :
    (processText "salam" sessEn .fail .noAudio).1 = none ∧
    (processText "salam" sessEn .fail .noAudio).2.recitationHistory = [] ++ ["salam"] ∧
    (processText "salam" sessEn .fail .noAudio).2.lastRecitation = "salam" :=
  ⟨(processText_genFail "salam" sessEn .noAudio).1,
   (processText_genFail "salam" sessEn .noAudio).2.2.1,
   (processText_genFail "salam" sessEn .noAudio).2.2.2⟩

/-- Witness for C5 at a concrete one-session live registry. -/
theorem scheduledSweep_preserves_live_witness :
    (scheduledSweep [sessOld] 0).1 = [sessOld] ∧ (scheduledSweep [sessOld] 0).2 = [] :=
  ⟨(scheduledSweep_preserves_live [sessOld] 0).1,
   (scheduledSweep_preserves_live [sessOld] 0).2.2⟩

/-- Witness for C7: the 59-minute-old session survives the concrete
60-minute sweep by the membership characterisation. -/
theorem cleanupOldSessions_spec_witness :
    sessFresh ∈ cleanupOldSessions 0 60 [sessOld, sessFresh] :=
  (cleanupOldSessions_spec.1 0 60 [sessOld, sessFresh] sessFresh).mpr
    ⟨by decide, by decide⟩

/-- Witness for C10: a get with an unknown identifier on a concrete store
returns absent and leaves the store unchanged. -/
theorem getSession_frame_witness :
    getSession 7 "unknown-id" [sessEn] = (none, [sessEn]) :=
  (getSession_frame 7 "unknown-id" [sessEn]).1 (by decide)
